import Mathlib

/-!
Shallow embedding of the `revert` reverse-proxy package (`src/http.go`).

Strings are modelled as `List Char`.  Go's `http.Header` (a map from
canonical header keys to lists of values) is modelled as a total function
from keys to value lists, where `[]` means the key is absent.  Map
aliasing (the outbound request starting as a shallow copy of the inbound
one) is made explicit: the header phase of `ServeHTTP` returns both final
maps together with an `aliased` flag that records whether they are the
same underlying map; when they are aliased, a mutation of one is a
mutation of both, which the embedding reflects by returning the mutated
map in both positions.
-/

namespace Revert

abbrev Str := List Char

/-- Coerce a Lean string literal to the `List Char` string model. -/
def str (s : String) : Str := s.data

/-- Model of Go `http.Header`: canonical key to list of values, `[]` = absent. -/
abbrev Header := Str → List Str

def emptyHeader : Header := fun _ => []

/-- Model of `http.Header.Get` (textproto `Get`): the first value of the
entry, or the empty string when the entry is absent or empty. -/
def getHeader (h : Header) (k : Str) : Str := (h k).headD []

/-- Model of `http.Header.Set`: replace the entry by the single value `v`. -/
def setHeader (h : Header) (k : Str) (v : Str) : Header :=
  fun q => if q = k then [v] else h q

/-- Model of `http.Header.Del`: remove the entry. -/
def delHeader (h : Header) (k : Str) : Header :=
  fun q => if q = k then [] else h q

/-- Model of `copyHeader` (src/http.go lines 112-118): `Add` every value of
every entry of `src` onto `dst`, so each value is appended, not overwritten. -/
def copyHeader (dst src : Header) : Header :=
  fun q => dst q ++ src q

/-- Model of `url.URL` as used by the director: scheme, host, path, the raw
path (which in this code carries `path?query`) and the raw query. -/
structure URL where
  scheme : Str
  host : Str
  path : Str
  rawPath : Str
  rawQuery : Str
deriving DecidableEq

/-- `singleJoiningSlash` (src/http.go lines 71-81): `aslash` is
`strings.HasSuffix(a, "/")`, `bslash` is `strings.HasPrefix(b, "/")`; if
both hold, drop `b`'s leading slash; if neither holds, insert a slash;
otherwise concatenate as-is. -/
def singleJoiningSlash (a b : Str) : Str :=
  let aslash := (str "/").isSuffixOf a
  let bslash := (str "/").isPrefixOf b
  if aslash ∧ bslash then a ++ b.tail
  else if ¬aslash ∧ ¬bslash then a ++ '/' :: b
  else a ++ b

/-- The director installed by `newSingleHostReverseProxy` (src/http.go lines
88-98), acting on the request URL: replace scheme and host by the target's,
join the paths, store `path?query` (or just the path when the query is
empty) into the raw path, then overwrite the raw query with the target's. -/
def director (target : URL) (u : URL) : URL :=
  let u1 : URL := { u with scheme := target.scheme, host := target.host }
  let u2 : URL := { u1 with path := singleJoiningSlash target.path u1.path }
  let u3 : URL :=
    if u2.rawQuery ≠ [] then { u2 with rawPath := u2.path ++ '?' :: u2.rawQuery }
    else { u2 with rawPath := u2.path }
  { u3 with rawQuery := target.rawQuery }

/-- The `ReverseProxy` configuration fields used by `ServeHTTP`
(src/http.go lines 50-69): flush interval, `DomainProxy`, `Domain` and the
forbidden redirect prefixes. -/
structure ReverseProxy where
  flushInterval : Int
  domainProxy : Str
  domain : Str
  forbiddens : List Str

/-- Result of the header phase of `ServeHTTP` (src/http.go lines 130-151):
the inbound request's header map as it stands afterwards, the outbound
request's header map, and whether the two are the same underlying map. -/
structure HeadersResult where
  reqHeader : Header
  outHeader : Header
  aliased : Bool

/-- Lines 149-151 of src/http.go: when `net.SplitHostPort` succeeded on the
inbound remote address (modelled by `some ip`), `Set` the forwarded-for
header; on parse failure the header write is skipped. -/
def applyForwardedFor (h : Header) : Option Str → Header
  | some ip => setHeader h (str "X-Forwarded-For") ip
  | none => h

/-- Header phase of `ServeHTTP` (src/http.go lines 130-151).  `outreq`
starts as a shallow copy of `req`, so its header map aliases the inbound
one.  Only when `outreq.Header.Get("Connection")` is nonempty is a fresh
map made (via `copyHeader`) and the `Connection` entry deleted; the
forwarded-for `Set` is then applied to whichever map `outreq.Header`
points at.  `clientIp?` is the result of `net.SplitHostPort` on the raw
remote address. -/
def serveHeaders (reqH : Header) (clientIp? : Option Str) : HeadersResult :=
  if getHeader reqH (str "Connection") ≠ [] then
    let outH := delHeader (copyHeader emptyHeader reqH) (str "Connection")
    { reqHeader := reqH, outHeader := applyForwardedFor outH clientIp?, aliased := false }
  else
    let outH := applyForwardedFor reqH clientIp?
    { reqHeader := outH, outHeader := outH, aliased := true }

/-- Model of Go `bytes.Replace(s, old, new, -1)` for a nonempty pattern:
scan left to right; at each position, if `old` matches, emit `new` and skip
past the match (non-overlapping); otherwise keep the byte and move on.
`skip` counts characters of an accepted match still to be consumed, so the
recursion is structural on the string. -/
def replaceAllGo (old new : Str) : Nat → Str → Str
  | _, [] => []
  | Nat.succ k, _ :: rest => replaceAllGo old new k rest
  | 0, c :: rest =>
      if old ≠ [] ∧ old.isPrefixOf (c :: rest) then
        new ++ replaceAllGo old new (old.length - 1) rest
      else
        c :: replaceAllGo old new 0 rest

/-- Model of Go `bytes.Replace(s, old, new, -1)`: global, non-overlapping,
literal substring replacement; for an empty `old`, Go inserts `new` before
each rune and after the last one. -/
def replaceAll (old new s : Str) : Str :=
  if old = [] then new ++ s.flatMap (fun c => c :: new)
  else replaceAllGo old new 0 s

/-- Model of the backend `http.Response` fields read by `ServeHTTP`:
status code, header map, and body (`none` models a nil body). -/
structure Response where
  statusCode : Nat
  header : Header
  body : Option Str

/-- What became of the backend response body by the time `ServeHTTP`
returned: there was none, it was left untouched (neither drained nor
closed), or it was fully drained by `io.Copy` (the code never calls
`Close` anywhere). -/
inductive BodyFate where
  | noBody
  | leaked
  | drainedNotClosed
deriving DecidableEq

/-- Everything `ServeHTTP` hands to the client for one exchange, plus the
resource accounting the claims need: the status passed to `WriteHeader`,
the client response header map, the body bytes written, the fate of the
backend body, and how many times `RoundTrip` was invoked (the source
calls it exactly once, with no retry loop, on every path). -/
structure ClientResult where
  status : Nat
  header : Header
  body : Str
  bodyFate : BodyFate
  roundTrips : Nat

/-- Lines 173-186 of src/http.go: on status 301, 302 or 307 with a present
`Location` header, walk `p.forbiddens` in order and stop at the first
prefix match of the first `Location` value (`strings.HasPrefix`). -/
def locationForbidden (p : ReverseProxy) (res : Response) : Bool :=
  if res.statusCode = 301 ∨ res.statusCode = 302 ∨ res.statusCode = 307 then
    match res.header (str "Location") with
    | [] => false
    | loc :: _ => (p.forbiddens.find? (fun f => f.isPrefixOf loc)).isSome
  else false

def textPlainUtf8 : Str := str "text/plain; charset=utf-8"

/-- Lines 196-198 of src/http.go: `ct != nil && ct[0] == "text/plain;
charset=utf-8"` — the first `Content-Type` value is exactly the plain-text
UTF-8 content type. -/
def contentTypeIsTextPlain (res : Response) : Bool :=
  match res.header (str "Content-Type") with
  | [] => false
  | ct :: _ => ct = textPlainUtf8

/-- Response phase of `ServeHTTP` (src/http.go lines 160-209), given the
single `RoundTrip` outcome `tr` (`Except.error` models a transport error)
and the client's initial response header map `clientH`.  Paths, in source
order: transport error → `WriteHeader(500)` and return (no body bytes);
otherwise copy all backend headers to the client, then the redirect
filter → `WriteHeader(404)` and return, leaving the body untouched; then
`WriteHeader(res.StatusCode)` and, when a body is present, either the
buffered text-substitution path (status 200 and exact plain-text content
type: drain the body, `bytes.Replace` DomainProxy→Domain, write the
result) or a plain `io.Copy` of the body.  The choice of destination
writer (raw stream vs `maxLatencyWriter`) does not change the bytes
written, so it is not reflected here. -/
def serveResponse (p : ReverseProxy) (clientH : Header) (tr : Except Unit Response) :
    ClientResult :=
  match tr with
  | Except.error _ =>
      { status := 500, header := clientH, body := [],
        bodyFate := BodyFate.noBody, roundTrips := 1 }
  | Except.ok res =>
      let ch := copyHeader clientH res.header
      if locationForbidden p res then
        { status := 404, header := ch, body := [],
          bodyFate := match res.body with
            | none => BodyFate.noBody
            | some _ => BodyFate.leaked,
          roundTrips := 1 }
      else
        match res.body with
        | none =>
            { status := res.statusCode, header := ch, body := [],
              bodyFate := BodyFate.noBody, roundTrips := 1 }
        | some b =>
            if res.statusCode = 200 ∧ contentTypeIsTextPlain res = true then
              { status := res.statusCode, header := ch,
                body := replaceAll p.domainProxy p.domain b,
                bodyFate := BodyFate.drainedNotClosed, roundTrips := 1 }
            else
              { status := res.statusCode, header := ch, body := b,
                bodyFate := BodyFate.drainedNotClosed, roundTrips := 1 }

/-- Observable state of one `maxLatencyWriter` during a body copy
(src/http.go lines 216-252): whether the `flushLoop` goroutine has been
started, and how many stop signals have been sent on `m.done`. -/
structure FlushTaskState where
  started : Bool
  stopSignals : Nat
deriving DecidableEq

/-- `maxLatencyWriter.Write` (src/http.go lines 224-236): under the lock,
lazily start `flushLoop` on first write, perform the underlying write, and
on a write error send one value on `m.done` (the argument `writeOk` tells
whether the underlying `dst.Write` succeeded). -/
def mlwWrite (st : FlushTaskState) (writeOk : Bool) : FlushTaskState :=
  let st1 := if st.started then st else { st with started := true }
  if writeOk then st1 else { st1 with stopSignals := st1.stopSignals + 1 }

/-- `io.Copy` onto a `maxLatencyWriter`, chunk by chunk: each list element
says whether that chunk's write succeeded; the copy stops at the first
failed write.  After the copy, `ServeHTTP` simply returns — there is no
teardown of the flush task anywhere on the normal-completion path. -/
def copyToMLW (st : FlushTaskState) : List Bool → FlushTaskState
  | [] => st
  | ok :: rest =>
      let st1 := mlwWrite st ok
      if ok then copyToMLW st1 rest else st1

/-- Initial `maxLatencyWriter` state: `done` unallocated, no goroutine. -/
def mlwInit : FlushTaskState := { started := false, stopSignals := 0 }

/- Concrete inputs used by counterexamples, witnesses and code-bug
evaluations. -/

/-- An inbound header map with no entries at all (in particular, no
`Connection` header). -/
def hNoConn : Header := fun _ => []

/-- An inbound header map carrying `Connection: close` and a
client-supplied `X-Forwarded-For`. -/
def hConnClose : Header :=
  fun k =>
    if k = str "Connection" then [str "close"]
    else if k = str "X-Forwarded-For" then [str "203.0.113.7"] else []

/-- An inbound header map carrying a `Connection` entry whose first value
is the empty string. -/
def hConnEmptyVal : Header :=
  fun k => if k = str "Connection" then [[]] else []

/-- The target URL produced by `url.Parse("http://localhost:80")` as done
by `New` (src/http.go lines 102-110): empty path and empty raw query. -/
def targetLocalhost : URL :=
  { scheme := str "http", host := str "localhost:80", path := [],
    rawPath := [], rawQuery := [] }

/-- An inbound request URL carrying a query string. -/
def inUrlWithQuery : URL :=
  { scheme := str "http", host := str "front.example", path := str "/dir",
    rawPath := str "/dir?a=1", rawQuery := str "a=1" }

/-- The proxy configuration of the end-to-end scenarios: backend authority
`backend:9000`, public domain `example.com`, one forbidden prefix
`http://evil.test`. -/
def pEx : ReverseProxy :=
  { flushInterval := 0, domainProxy := str "backend:9000",
    domain := str "example.com", forbiddens := [str "http://evil.test"] }

/-- A backend `302` response whose `Location` matches the forbidden prefix
and which carries a nonempty body. -/
def resRedirect : Response :=
  { statusCode := 302,
    header := fun k => if k = str "Location" then [str "http://evil.test/x"] else [],
    body := some (str "moved") }

/-- A backend `200` plain-text response whose body mentions the backend
authority. -/
def resTextPlain : Response :=
  { statusCode := 200,
    header := fun k => if k = str "Content-Type" then [textPlainUtf8] else [],
    body := some (str "visit backend:9000 now") }

end Revert

namespace Revert

/-- Claim C8: `singleJoiningSlash` realises the "exactly one slash"
semantics — the result is always the left side with its trailing slash
removed (when it has one), then exactly one slash, then the right side
with its leading slash removed (when it has one); hence the junction
introduced by the join never has a double slash or a missing slash. -/
theorem c8_single_joining_slash (a b : Str) :
    singleJoiningSlash a b =
      (if (str "/").isSuffixOf a then a.dropLast else a) ++
        '/' :: (if (str "/").isPrefixOf b then b.tail else b) := by
  by_cases ha : (['/'] : Str) <:+ a
  · obtain ⟨t, rfl⟩ := ha
    have ha' : (['/'] : Str) <:+ t ++ ['/'] := ⟨t, rfl⟩
    by_cases hb : (['/'] : Str) <+: b
    · obtain ⟨u, rfl⟩ := hb
      have hb' : (['/'] : Str) <+: ['/'] ++ u := ⟨u, rfl⟩
      simp [singleJoiningSlash, ha', hb', str, List.dropLast_concat]
    · simp [singleJoiningSlash, ha', hb, str, List.dropLast_concat]
  · by_cases hb : (['/'] : Str) <+: b
    · obtain ⟨u, rfl⟩ := hb
      have hb' : (['/'] : Str) <+: ['/'] ++ u := ⟨u, rfl⟩
      simp [singleJoiningSlash, ha, hb', str]
    · simp [singleJoiningSlash, ha, hb, str]

/-- A string with no occurrence of the (nonempty) pattern passes through
the global replacement unchanged: bytes outside matches are never touched. -/
theorem replaceAll_of_not_infix (old new s : Str) (hne : old ≠ []) (h : ¬ old <:+: s) :
    replaceAll old new s = s := by
  rw [replaceAll, if_neg hne]
  induction s with
  | nil => rfl
  | cons c rest ih =>
    have hpre : ¬ (old ≠ [] ∧ old.isPrefixOf (c :: rest)) := by
      rintro ⟨-, hp⟩
      exact h (List.isPrefixOf_iff_prefix.mp hp).isInfix
    rw [replaceAllGo, if_neg hpre]
    rw [ih (fun hi => h (List.infix_cons hi))]

/-- Claim C1 counterexample: an inbound request with no `Connection`
header and a parsable remote address — `ServeHTTP` sets the forwarded-for
header on the inbound request's own header map (the outbound map still
aliases it), so the inbound map is mutated. -/
theorem c1_counterexample :
    (serveHeaders hNoConn (some (str "203.0.113.7"))).reqHeader (str "X-Forwarded-For")
      ≠ hNoConn (str "X-Forwarded-For") := by
  decide

/-- Claim C1 (amended): when the inbound request carries a `Connection`
header whose first value is nonempty, the header map is copied before any
modification, so the inbound request's own header map is never mutated
(every key reads the same after `ServeHTTP`'s header phase). -/
theorem c1_inbound_unmutated_when_connection (h : Header) (ip? : Option Str) (k : Str)
    (hc : getHeader h (str "Connection") ≠ []) :
    (serveHeaders h ip?).reqHeader k = h k := by
  simp [serveHeaders, hc]

/-- Claim C1 witness: the amended statement at a concrete request carrying
`Connection: close`, checked at the forwarded-for key that the copy
mutates. -/
theorem c1_witness :
    getHeader hConnClose (str "Connection") ≠ [] ∧
      (serveHeaders hConnClose (some (str "203.0.113.7"))).reqHeader (str "X-Forwarded-For")
        = hConnClose (str "X-Forwarded-For") :=
  ⟨by decide,
    c1_inbound_unmutated_when_connection hConnClose (some (str "203.0.113.7"))
      (str "X-Forwarded-For") (by decide)⟩

/-- Claim C2 counterexample: for the target built by `New` (raw query
empty) and an inbound URL with query `a=1`, the director overwrites the
outbound raw query with the target's, so the outbound query field does
not equal the inbound query. -/
theorem c2_counterexample :
    (director targetLocalhost inUrlWithQuery).rawQuery ≠ inUrlWithQuery.rawQuery := by
  decide

/-- Claim C2 (amended): the director preserves a nonempty inbound query
string verbatim as the `?`-suffix of the outbound raw path, while the
outbound raw query field is overwritten with the target's raw query
(empty for targets built by `New`). -/
theorem c2_query_preserved_in_rawPath (t u : URL) (hq : u.rawQuery ≠ []) :
    (director t u).rawPath = (director t u).path ++ '?' :: u.rawQuery ∧
      (director t u).rawQuery = t.rawQuery := by
  simp [director, hq]

/-- Claim C2 witness: the amended statement at the `New`-built target and
a concrete inbound URL with query `a=1`. -/
theorem c2_witness :
    inUrlWithQuery.rawQuery ≠ [] ∧
      ((director targetLocalhost inUrlWithQuery).rawPath
          = (director targetLocalhost inUrlWithQuery).path ++ '?' :: inUrlWithQuery.rawQuery ∧
        (director targetLocalhost inUrlWithQuery).rawQuery = targetLocalhost.rawQuery) :=
  ⟨by decide, c2_query_preserved_in_rawPath targetLocalhost inUrlWithQuery (by decide)⟩

/-- Claim C3 (code bug evaluation): on the filtered-redirect path the code
returns right after `WriteHeader(404)` without draining or closing the
backend body — at the concrete forbidden 302 response with a nonempty
body, `ServeHTTP` leaves the body neither drained nor closed. -/
theorem c3_redirect_leaks_body :
    resRedirect.body.isSome = true ∧
      (serveResponse pEx emptyHeader (Except.ok resRedirect)).bodyFate = BodyFate.leaked := by
  decide

/-- Claim C4: for a backend response with status 301, 302 or 307 whose
first `Location` value starts with some configured forbidden prefix, the
client receives status 404 and zero body bytes, and processing stops. -/
theorem c4_forbidden_redirect_404 (p : ReverseProxy) (clientH : Header) (res : Response)
    (loc : Str) (rest : List Str)
    (hs : res.statusCode = 301 ∨ res.statusCode = 302 ∨ res.statusCode = 307)
    (hl : res.header (str "Location") = loc :: rest)
    (hf : (p.forbiddens.find? (fun f => f.isPrefixOf loc)).isSome = true) :
    (serveResponse p clientH (Except.ok res)).status = 404 ∧
      (serveResponse p clientH (Except.ok res)).body = [] := by
  have hfb : locationForbidden p res = true := by
    simp [locationForbidden, hs, hl, hf]
  simp [serveResponse, hfb]

/-- Claim C4 witness: the spec's end-to-end scenario — forbidden prefix
`http://evil.test`, backend 302 with `Location: http://evil.test/x` — the
client sees 404 with an empty body. -/
theorem c4_witness :
    (resRedirect.statusCode = 301 ∨ resRedirect.statusCode = 302 ∨ resRedirect.statusCode = 307) ∧
      resRedirect.header (str "Location") = [str "http://evil.test/x"] ∧
      (pEx.forbiddens.find? (fun f => f.isPrefixOf (str "http://evil.test/x"))).isSome = true ∧
      ((serveResponse pEx emptyHeader (Except.ok resRedirect)).status = 404 ∧
        (serveResponse pEx emptyHeader (Except.ok resRedirect)).body = []) :=
  ⟨by decide, by decide, by decide,
    c4_forbidden_redirect_404 pEx emptyHeader resRedirect (str "http://evil.test/x") []
      (by decide) (by decide) (by decide)⟩

/-- Claim C5: for a backend response with status exactly 200 and first
`Content-Type` value exactly `text/plain; charset=utf-8`, the body
delivered to the client is the backend body with every occurrence of the
backend authority replaced by the public domain — the global,
non-overlapping, literal replacement `replaceAll`. -/
theorem c5_text_replacement (p : ReverseProxy) (clientH : Header) (res : Response) (b : Str)
    (h200 : res.statusCode = 200)
    (hct : contentTypeIsTextPlain res = true)
    (hb : res.body = some b) :
    (serveResponse p clientH (Except.ok res)).body = replaceAll p.domainProxy p.domain b := by
  have hnf : locationForbidden p res = false := by
    simp [locationForbidden, h200]
  simp [serveResponse, hnf, hb, h200, hct]

/-- Claim C5 witness: the spec's end-to-end scenario — backend authority
`backend:9000`, public domain `example.com`, body
`visit backend:9000 now` — the client sees `visit example.com now`. -/
theorem c5_witness :
    resTextPlain.statusCode = 200 ∧ contentTypeIsTextPlain resTextPlain = true ∧
      resTextPlain.body = some (str "visit backend:9000 now") ∧
      (serveResponse pEx emptyHeader (Except.ok resTextPlain)).body
        = str "visit example.com now" :=
  ⟨rfl, by decide, rfl,
    (c5_text_replacement pEx emptyHeader resTextPlain (str "visit backend:9000 now")
        rfl (by decide) rfl).trans (by decide)⟩

/-- Claim C6: when the single transport send fails, the client receives
status 500 with zero body bytes and `RoundTrip` was invoked exactly once
(there is no retry loop anywhere in `ServeHTTP`). -/
theorem c6_transport_error_500 (p : ReverseProxy) (clientH : Header) :
    (serveResponse p clientH (Except.error ())).status = 500 ∧
      (serveResponse p clientH (Except.error ())).body = [] ∧
      (serveResponse p clientH (Except.error ())).roundTrips = 1 :=
  ⟨rfl, rfl, rfl⟩

/-- Claim C7 counterexample: an inbound request carrying a `Connection`
entry whose first value is the empty string — `Get("Connection")` returns
the empty string, so no copy is made: the outbound map still aliases the
inbound one and the `Connection` entry survives. -/
theorem c7_counterexample :
    (serveHeaders hConnEmptyVal none).aliased = true ∧
      (serveHeaders hConnEmptyVal none).outHeader (str "Connection") = [[]] := by
  decide

/-- Claim C7 (amended): for every inbound request whose `Connection`
header has a nonempty first value, the outbound header map is a freshly
copied map, distinct from the inbound one, and contains no `Connection`
entry. -/
theorem c7_connection_stripped (h : Header) (ip? : Option Str)
    (hc : getHeader h (str "Connection") ≠ []) :
    (serveHeaders h ip?).aliased = false ∧
      (serveHeaders h ip?).outHeader (str "Connection") = [] := by
  have hne : str "Connection" ≠ str "X-Forwarded-For" := by decide
  cases ip? with
  | none => simp [serveHeaders, hc, applyForwardedFor, delHeader]
  | some ip =>
      simp [serveHeaders, hc, applyForwardedFor, setHeader, delHeader, hne]

/-- Claim C7 witness: the amended statement at a concrete request carrying
`Connection: close`. -/
theorem c7_witness :
    getHeader hConnClose (str "Connection") ≠ [] ∧
      ((serveHeaders hConnClose none).aliased = false ∧
        (serveHeaders hConnClose none).outHeader (str "Connection") = []) :=
  ⟨by decide, c7_connection_stripped hConnClose none (by decide)⟩

/-- Claim C9 (code bug evaluation): a body copy through the
`maxLatencyWriter` in which every write succeeds — the flush goroutine was
started, yet zero stop signals were ever sent on `done` (and `ServeHTTP`
performs no teardown), so the periodic task outlives the request. -/
theorem c9_flush_task_not_stopped :
    (copyToMLW mlwInit [true, true]).started = true ∧
      (copyToMLW mlwInit [true, true]).stopSignals = 0 := by
  decide

/-- Claim C10: whenever the raw remote address parses as host:port (here:
the parse result is `some ip`), the outbound request's forwarded-for
header is exactly `[ip]` — any client-supplied values are replaced, never
appended to, because the code uses `Set`. -/
theorem c10_xff_replaced (h : Header) (ip : Str) :
    (serveHeaders h (some ip)).outHeader (str "X-Forwarded-For") = [ip] := by
  by_cases hc : getHeader h (str "Connection") = []
  · simp [serveHeaders, hc, applyForwardedFor, setHeader]
  · simp [serveHeaders, hc, applyForwardedFor, setHeader]

end Revert
